import Mathlib

/-!
Verification of the session-managed streaming transport samples of this
repository: the Server-Sent-Events demo endpoints
(`3-streamable/SSE/src/server-sent-events.ts`), the MCP Express handlers
(`3-streamable/DemoServer/src/mcp-express-handlers.ts`,
`4-auth/src/lib/streamable-http.ts`), the authentication middleware
(`auth-middleware.ts`) and the request-scoped auth-context propagator
(`auth-context.ts`).

Each definition is a shallow embedding of the corresponding TypeScript
function; theorems below settle the specified behavioural properties.
-/

set_option autoImplicit false

/-! ## Wire frames of the SSE endpoints

One `Frame` is one SSE message as written by the handlers in
`server-sent-events.ts`: a comment line, a data-only message, a named
event (`/custom-events`), a named event carrying an `id:` line
(`/custom-events-with-id`), or the `event: eom` end-of-stream sentinel. -/

inductive Frame where
  | comment (text : String)
  | data (text : String)
  | event (name : String) (text : String)
  | eventWithId (name : String) (text : String) (id : Nat)
  | eom
  deriving DecidableEq

/-- Event name chosen by the loop body: `i % 2 === 0 ? "even" : "odd"`. -/
def eventName (i : Nat) : String :=
  if i % 2 = 0 then "even" else "odd"

/-- Data payload written by the loop body: the JSON text `\x7b "value": i \x7d`. -/
def eventData (i : Nat) : String :=
  "\x7b \"value\": " ++ toString i ++ " \x7d"

/-- The named, id-carrying event written by one iteration of the
`/custom-events-with-id` loop. -/
def mkIdEvent (i : Nat) : Frame :=
  Frame.eventWithId (eventName i) (eventData i) i

/-- The named event written by one iteration of the `/custom-events` loop. -/
def mkEvent (i : Nat) : Frame :=
  Frame.event (eventName i) (eventData i)

/-! ## JavaScript `parseInt(s, 10)`

`parseInt` skips leading whitespace, honours one optional sign, then takes
the longest prefix of decimal digits; it yields `NaN` (here `none`) when no
digit follows. -/

def digitsToNat (cs : List Char) : Nat :=
  cs.foldl (fun acc c => acc * 10 + (c.toNat - 48)) 0

/-- Longest leading run of decimal digits, `none` when there is none
(JavaScript `NaN`). -/
def parseLeadingDigits (cs : List Char) : Option Nat :=
  match cs.takeWhile Char.isDigit with
  | [] => none
  | ds => some (digitsToNat ds)

/-- JavaScript `parseInt(s, 10)`: `none` models `NaN`. -/
def jsParseInt (s : String) : Option Int :=
  let cs := s.data.dropWhile Char.isWhitespace
  match cs with
  | '-' :: rest => (parseLeadingDigits rest).map (fun n => -(n : Int))
  | '+' :: rest => (parseLeadingDigits rest).map (fun n => (n : Int))
  | _ => (parseLeadingDigits cs).map (fun n => (n : Int))

/-! ## The `/custom-events-with-id` handler

`startIndex` embeds lines 125-136: the loop variable `i` starts at `0`;
a truthy `Last-Event-Id` header is parsed with `parseInt(·, 10)`; a `NaN`
or negative value is invalid (a warning comment is written and `i` stays
`0`); a valid value `k` resumes at `i = k + 1`. -/

def startIndex (lastEventId : Option String) : Nat :=
  match lastEventId with
  | none => 0
  | some s =>
    if s = "" then 0
    else
      match jsParseInt s with
      | none => 0
      | some n => if n < 0 then 0 else n.toNat + 1

/-- The comment frame written in the invalid-header branch
(`response.write` of `: Invalid Last-Event-Id, starting from 0`). -/
def commentPart (lastEventId : Option String) : List Frame :=
  match lastEventId with
  | none => []
  | some s =>
    if s = "" then []
    else
      match jsParseInt s with
      | none => [Frame.comment "Invalid Last-Event-Id, starting from 0"]
      | some n => if n < 0 then [Frame.comment "Invalid Last-Event-Id, starting from 0"] else []

/-- Loop of lines 137-156, fuel-structured so it evaluates in the kernel.
`abort` is the index of the loop iteration during whose `sleep` the
connection-close signal fires (the only suspension points of the handler
are the sleeps, so the `close` callback, which sets `aborted`, can only
run there); `none` means the client never disconnects.  Returns the
frames written, the final value of `i`, and the final `aborted` flag.
The `i === 5` branch is the deliberately simulated failure: event `5` is
written and the loop breaks without incrementing `i`. -/
def withIdRun (abort : Option Nat) : Nat → Nat → List Frame × Nat × Bool
  | 0, i => ([], i, false)
  | fuel + 1, i =>
    if i < 10 then
      if abort = some i then ([], i, true)
      else if i = 5 then ([mkIdEvent 5], 5, false)
      else
        let r := withIdRun abort fuel (i + 1)
        (mkIdEvent i :: r.1, r.2.1, r.2.2)
    else ([], i, false)

/-- Frames streamed by `/custom-events-with-id` after the headers, given
the computed starting index: the loop output followed by the `eom`
sentinel exactly when `i === 10 && !aborted` (lines 158-161). -/
def withIdStream (start : Nat) (abort : Option Nat) : List Frame :=
  let r := withIdRun abort 11 start
  r.1 ++ (if r.2.1 = 10 ∧ r.2.2 = false then [Frame.eom] else [])

/-- Final `aborted` flag of the `/custom-events-with-id` run. -/
def withIdAborted (start : Nat) (abort : Option Nat) : Bool :=
  (withIdRun abort 11 start).2.2

/-- Response of one `/custom-events-with-id` request: `406` when the
client does not accept `text/event-stream`, otherwise `200` with the
streamed frames. -/
structure SDResponse where
  status : Nat
  frames : List Frame
  deriving DecidableEq

def customEventsWithId (acceptsEventStream : Bool) (lastEventId : Option String)
    (abort : Option Nat) : SDResponse :=
  if acceptsEventStream then
    ⟨200, commentPart lastEventId ++ withIdStream (startIndex lastEventId) abort⟩
  else ⟨406, []⟩

/-- Ids carried by the emitted `id:`-bearing events of a frame list. -/
def emittedEventIds (fs : List Frame) : List Nat :=
  fs.filterMap (fun f =>
    match f with
    | Frame.eventWithId _ _ i => some i
    | _ => none)

/-! ## The `/custom-events` handler (lines 45-96)

Same loop without `id:` lines and without the simulated failure at `5`:
abort checks before and after each sleep, `event: eom` written exactly
when `!aborted`. -/

/-- Loop of `/custom-events`; returns frames written and the final
`aborted` flag. -/
def customEventsRun (abort : Option Nat) : Nat → Nat → List Frame × Bool
  | 0, _ => ([], false)
  | fuel + 1, i =>
    if i < 10 then
      if abort = some i then ([], true)
      else
        let r := customEventsRun abort fuel (i + 1)
        (mkEvent i :: r.1, r.2)
    else ([], false)

/-- Final `aborted` flag of one `/custom-events` run. -/
def ceAborted (abort : Option Nat) : Bool :=
  (customEventsRun abort 11 0).2

/-- Frames streamed by `/custom-events`: loop output, then the `eom`
sentinel exactly when `!aborted` (lines 86-88). -/
def customEventsStream (abort : Option Nat) : List Frame :=
  let r := customEventsRun abort 11 0
  r.1 ++ (if r.2 = false then [Frame.eom] else [])

/-! ## The `/data-only` handler (lines 10-43)

No abort handling at all: a leading comment, ten data-only messages, and
the empty-payload data-only sentinel `data\n\n` before `response.end()`. -/

def dataOnlyStream : List Frame :=
  Frame.comment "Lets get started"
    :: ((List.range 10).map (fun i => Frame.data ("Data " ++ toString i)) ++ [Frame.data ""])

/-! ## Timer-level trace of `/custom-events`

For the cancellation claim the run is refined to a trace that records the
`setTimeout` lifecycle of `sleep` (lines 171-173): each loop iteration
starts a timer, the timer always fires (nothing ever cancels it — the
promise resolves only through `setTimeout`), and the connection-close
signal, when it arrives during iteration `j`'s sleep, is recorded between
that timer's start and its firing.  The `aborted` check after the sleep
then breaks the loop before the event write. -/

inductive TItem where
  | write (f : Frame)
  | timerStart (i : Nat)
  | timerFire (i : Nat)
  | closeSignal
  deriving DecidableEq

/-- Trace of the `/custom-events` loop with timer events; `abort = some j`
means the close signal fires during the sleep of iteration `j`. -/
def ceTraceRun (abort : Option Nat) : Nat → Nat → List TItem × Bool
  | 0, _ => ([], false)
  | fuel + 1, i =>
    if i < 10 then
      if abort = some i then
        ([TItem.timerStart i, TItem.closeSignal, TItem.timerFire i], true)
      else
        let r := ceTraceRun abort fuel (i + 1)
        (TItem.timerStart i :: TItem.timerFire i :: TItem.write (mkEvent i) :: r.1, r.2)
    else ([], false)

/-- Full trace of one `/custom-events` request, including the final `eom`
write when the run was not aborted. -/
def ceFullTrace (abort : Option Nat) : List TItem :=
  let r := ceTraceRun abort 11 0
  r.1 ++ (if r.2 = false then [TItem.write Frame.eom] else [])

/-- Trace items strictly after the close signal (empty when no close
signal occurs). -/
def afterClose (tr : List TItem) : List TItem :=
  match tr.dropWhile (fun x => decide (x ≠ TItem.closeSignal)) with
  | [] => []
  | _ :: rest => rest

/-- Trace items strictly before the close signal. -/
def beforeClose (tr : List TItem) : List TItem :=
  tr.takeWhile (fun x => decide (x ≠ TItem.closeSignal))

/-- No frame is written after the close signal is observed. -/
def noWritesAfterClose (tr : List TItem) : Bool :=
  (afterClose tr).all (fun x =>
    match x with
    | TItem.write _ => false
    | _ => true)

/-- Every timer outstanding at the close signal (started before it, not
yet fired) is cancelled: it never fires afterwards. -/
def timersCancelled (tr : List TItem) : Bool :=
  (afterClose tr).all (fun x =>
    match x with
    | TItem.timerFire i => !(beforeClose tr).contains (TItem.timerStart i)
    | _ => true)

/-! ## Session registry

Both streaming servers keep `const transports: { [sessionId: string]:
StreamableHTTPServerTransport } = {}`; embedded as an association list
from session id to a transport identity. -/

abbrev Registry := List (String × Nat)

/-- `transports[sessionId]` lookup. -/
def regLookup (reg : Registry) (s : String) : Option Nat :=
  (reg.find? (fun p => p.1 = s)).map (fun p => p.2)

/-- `delete transports[sessionId]` — removes the key, a no-op when the
key is absent. -/
def regErase (reg : Registry) (s : String) : Registry :=
  reg.filter (fun p => decide (p.1 ≠ s))

/-- JavaScript truthiness of the optional session-id header value: absent
or the empty string is falsy. -/
def truthy (s : Option String) : Bool :=
  match s with
  | none => false
  | some v => decide (v ≠ "")

/-- `sessionId && transports[sessionId]`: the live transport for a truthy
session id, `none` otherwise. -/
def liveTransport (reg : Registry) (sid : Option String) : Option Nat :=
  match sid with
  | none => none
  | some s => if s = "" then none else regLookup reg s

/-! ## POST /mcp handlers -/

/-- JSON-RPC error envelope `res.status(·).json(...)` bodies; `id` is
always JSON `null`, modelled by `none`. -/
structure JsonRpcErrorEnvelope where
  jsonrpc : String
  code : Int
  message : String
  id : Option Int
  deriving DecidableEq

def noValidSessionError : JsonRpcErrorEnvelope :=
  ⟨"2.0", -32000, "Bad Request: No valid session ID provided", none⟩

/-- Outcome of the POST /mcp dispatch: reuse an existing transport,
create a fresh one for an initialize request, or answer an error
response without touching any transport. -/
inductive PostDecision where
  | reuse (t : Nat)
  | initializeNew (sid : String) (t : Nat)
  | errorResponse (status : Nat) (body : JsonRpcErrorEnvelope)
  deriving DecidableEq

/-- `app.post('/mcp')` of `4-auth/src/lib/streamable-http.ts` (lines
213-268): reuse when `sessionId && transports[sessionId]`; create (and
register under the generated id) when `!sessionId` and the body method is
`initialize`; otherwise `400` with the JSON-RPC `-32000` envelope.
`newSid`/`newT` stand for `randomUUID()` and the fresh transport. -/
def mcpPostAuth (reg : Registry) (sid : Option String) (isInit : Bool)
    (newSid : String) (newT : Nat) : PostDecision × Registry :=
  match liveTransport reg sid with
  | some t => (PostDecision.reuse t, reg)
  | none =>
    if truthy sid = false ∧ isInit then
      (PostDecision.initializeNew newSid newT, (newSid, newT) :: reg)
    else
      (PostDecision.errorResponse 400 noValidSessionError, reg)

/-- `mcpPostHandler` of
`3-streamable/DemoServer/src/mcp-express-handlers.ts` (lines 35-98): the
same dispatch, with `isInitializeRequest(req.body)` as the initialize
test. -/
def mcpPostDemo (reg : Registry) (sid : Option String) (isInit : Bool)
    (newSid : String) (newT : Nat) : PostDecision × Registry :=
  match liveTransport reg sid with
  | some t => (PostDecision.reuse t, reg)
  | none =>
    if truthy sid = false ∧ isInit then
      (PostDecision.initializeNew newSid newT, (newSid, newT) :: reg)
    else
      (PostDecision.errorResponse 400 noValidSessionError, reg)

/-! ## GET/DELETE /mcp session requests and teardown -/

/-- Outcome of `handleSessionRequest`: a `400` text response, or delivery
of the request to the session's transport. -/
inductive SessionReqOutcome where
  | invalidSession (status : Nat) (body : String)
  | delivered (t : Nat)
  deriving DecidableEq

/-- `handleSessionRequest` of `4-auth/src/lib/streamable-http.ts` (lines
274-295): `400` when the session id is missing or unknown, otherwise the
request is delegated to the existing transport. -/
def handleSessionRequest (reg : Registry) (sid : Option String) : SessionReqOutcome :=
  match liveTransport reg sid with
  | none => SessionReqOutcome.invalidSession 400 "Invalid or missing session ID"
  | some t => SessionReqOutcome.delivered t

/-- `transport.onclose` of `4-auth/src/lib/streamable-http.ts` (lines
235-239): `if (transport.sessionId) delete transports[transport.sessionId]`. -/
def oncloseAuth (sid : Option String) (reg : Registry) : Registry :=
  match sid with
  | none => reg
  | some s => if s = "" then reg else regErase reg s

/-- `transport.onclose` of
`3-streamable/DemoServer/src/mcp-express-handlers.ts` (lines 68-74):
`if (sid && transports[sid]) delete transports[sid]`. -/
def oncloseDemo (sid : Option String) (reg : Registry) : Registry :=
  match sid with
  | none => reg
  | some s =>
    if s = "" then reg
    else if (regLookup reg s).isSome then regErase reg s else reg

/-- Modelled from the spec: the DELETE handling inside
`StreamableHTTPServerTransport.handleRequest` is SDK code outside `src/`;
per §6 (`DELETE /mcp` — terminates the session, tears down the Transport,
evicts the Registry entry) and §4.2 (`CLOSING → CLOSED` triggers
synchronous `Registry.remove`), a DELETE delivered to a live transport
closes it, which invokes the `onclose` cleanup of
`4-auth/src/lib/streamable-http.ts`. -/
def deleteMcpAuth (reg : Registry) (sid : Option String) : SessionReqOutcome × Registry :=
  match handleSessionRequest reg sid with
  | SessionReqOutcome.invalidSession st b => (SessionReqOutcome.invalidSession st b, reg)
  | SessionReqOutcome.delivered t => (SessionReqOutcome.delivered t, oncloseAuth sid reg)

/-! ## Authentication middleware (`auth-middleware.ts`)

`requiredAuthMiddleware` extracts the Bearer token, validates it against
the required audience via `scalekit.validateToken`, attaches
`token`/`tokenClaims`/`isAuthenticated` to the request and calls
`next()`; any failure (missing token, failed validation) lands in the
`catch` block: `401` with the `WWW-Authenticate` header. -/

/-- Token claims as a flat key/value set (the middleware treats them
opaquely). -/
abbrev TokenClaims := List (String × String)

/-- Does the second character list start with the first? -/
def charsStartWith : List Char → List Char → Bool
  | [], _ => true
  | _ :: _, [] => false
  | p :: ps, c :: cs => p = c && charsStartWith ps cs

/-- JavaScript `String.prototype.trim`: strip whitespace at both ends. -/
def trimChars (cs : List Char) : List Char :=
  ((cs.dropWhile Char.isWhitespace).reverse.dropWhile Char.isWhitespace).reverse

/-- Characters before the next occurrence of the separator (the second
chunk of `split('Bearer ')` applied to what follows the first
occurrence).  Fuel-structured on the input length. -/
def takeUntilSep (sep : List Char) : Nat → List Char → List Char
  | 0, _ => []
  | _, [] => []
  | fuel + 1, c :: cs =>
    if charsStartWith sep (c :: cs) then [] else c :: takeUntilSep sep fuel cs

/-- Lines 22-25: `authHeader?.startsWith('Bearer ') ?
authHeader.split('Bearer ')[1]?.trim() : null`, with the subsequent
`if (!token)` truthiness check (the empty string is falsy). -/
def extractBearerToken (authHeader : Option String) : Option String :=
  match authHeader with
  | none => none
  | some h =>
    let sep := "Bearer ".data
    if charsStartWith sep h.data then
      let raw := takeUntilSep sep h.data.length (h.data.drop 7)
      let tok := trimChars raw
      if tok = [] then none else some (String.mk tok)
    else none

/-- The discovery metadata URL interpolated into `WWW_AUTHENTICATE_HEADER`
(`scalekit-config.ts` lines 461-464). -/
def resourceMetadataUrl (resourceId : String) : String :=
  resourceId ++ "/.well-known/oauth-protected-resource"

/-- Value of the `WWW-Authenticate` response header. -/
def wwwAuthenticateValue (resourceId : String) : String :=
  "Bearer realm=\"OAuth\", resource_metadata=\"" ++ resourceMetadataUrl resourceId ++ "\""

/-- Observable outcome of the middleware on one request: the response
status it sent (`none` when it passed the request on), the headers it
set, the `req.isAuthenticated` flag seen downstream, and whether
`next()` was called. -/
structure AuthOutcome where
  status : Option Nat
  headers : List (String × String)
  isAuthenticated : Bool
  nextCalled : Bool
  deriving DecidableEq

/-- `requiredAuthMiddleware` (`auth-middleware.ts` lines 19-73).
`validate` stands for `scalekit.validateToken(token, { audience:
[SCALEKIT_CONFIG.resourceId] })`: `none` models a thrown validation
error. -/
def requiredAuthMiddleware (resourceId : String) (validate : String → Option TokenClaims)
    (authHeader : Option String) : AuthOutcome :=
  match extractBearerToken authHeader with
  | none => ⟨some 401, [("WWW-Authenticate", wwwAuthenticateValue resourceId)], false, false⟩
  | some tok =>
    match validate tok with
    | none => ⟨some 401, [("WWW-Authenticate", wwwAuthenticateValue resourceId)], false, false⟩
    | some _ => ⟨none, [], true, true⟩

/-! ## Request-scoped auth context (`auth-context.ts`)

`runWithAuthContext`/`getAuthContext` wrap one `AsyncLocalStorage`
instance.  `AuthContext` mirrors the exported interface. -/

structure AuthContext where
  token : Option String
  tokenClaims : Option TokenClaims
  isAuthenticated : Bool
  sessionId : Option String
  deriving DecidableEq

/-- Global state of the storage machine: the store currently installed
(`authContextStorage`'s current store) plus the log of every
`getAuthContext()` call, tagged with the index of the request chain that
made it. -/
structure ALSState where
  cur : Option AuthContext
  log : List (Nat × Option AuthContext)
  deriving DecidableEq

/-- `getAuthContext()` (`auth-context.ts` lines 293-295): reads the
currently installed store. -/
def getAuthContextM (s : ALSState) : Option AuthContext :=
  s.cur

/-- Modelled from the spec: the `AsyncLocalStorage` mechanics of
`node:async_hooks` are platform code outside `src/`.  Per §4.4 and the
module documentation in `auth-context.ts`, each asynchronous continuation
of a chain started by `runWithAuthContext ctx fn` captures `ctx`; when
the scheduler resumes that chain, the captured store is swapped in, the
chain's code observes it through `getAuthContext()`, and the previous
store is swapped back when the chain suspends.  `chains.get? i` is the
store captured by chain `i` (`none` for a chain running outside any
`runWithAuthContext` scope); one `resumeStep` is one resumption of chain
`i` performing one `getAuthContext()` call. -/
def resumeStep (chains : List (Option AuthContext)) (s : ALSState) (i : Nat) : ALSState :=
  let captured := (chains.get? i).getD none
  let prev := s.cur
  let s1 : ALSState := { s with cur := captured }
  let v := getAuthContextM s1
  { cur := prev, log := s1.log ++ [(i, v)] }

/-- Run an arbitrary interleaving: the schedule lists, in execution
order, which chain is resumed at each step.  The machine starts outside
every scope (`cur = none`). -/
def runSchedule (chains : List (Option AuthContext)) (sched : List Nat) : ALSState :=
  sched.foldl (resumeStep chains) ⟨none, []⟩

def aliceCtx : AuthContext := ⟨some "tokA", some [("user", "alice")], true, some "sessA"⟩
def bobCtx : AuthContext := ⟨some "tokB", some [("user", "bob")], true, some "sessB"⟩

/-! ## Claim-level termination predicates

Worded after the end-of-stream claim: a run terminates normally when all
of its events (ids from the starting position through `9`) were delivered
and the client did not disconnect. -/

def NormalTermination (start : Nat) (abort : Option Nat) : Prop :=
  (∀ i < 10, start ≤ i → mkIdEvent i ∈ (withIdRun abort 11 start).1) ∧
  withIdAborted start abort = false

instance (start : Nat) (abort : Option Nat) : Decidable (NormalTermination start abort) := by
  unfold NormalTermination
  infer_instance

/-- Normal termination of one `/custom-events` run. -/
def CeNormalTermination (abort : Option Nat) : Prop :=
  (∀ i < 10, mkEvent i ∈ (customEventsRun abort 11 0).1) ∧ ceAborted abort = false

instance (abort : Option Nat) : Decidable (CeNormalTermination abort) := by
  unfold CeNormalTermination
  infer_instance

/-! ## Helper lemmas -/

lemma jsParseInt_empty : jsParseInt "" = none := by decide

lemma startIndex_valid {s : String} {k : Int} (hp : jsParseInt s = some k) (h0 : 0 ≤ k) :
    startIndex (some s) = k.toNat + 1 := by
  have hs : ¬ s = "" := by
    intro h
    rw [h, jsParseInt_empty] at hp
    exact Option.noConfusion hp
  have hneg : ¬ k < 0 := by omega
  simp [startIndex, hs, hp, hneg]

lemma commentPart_valid {s : String} {k : Int} (hp : jsParseInt s = some k) (h0 : 0 ≤ k) :
    commentPart (some s) = [] := by
  have hs : ¬ s = "" := by
    intro h
    rw [h, jsParseInt_empty] at hp
    exact Option.noConfusion hp
  have hneg : ¬ k < 0 := by omega
  simp [commentPart, hs, hp, hneg]

lemma withIdRun_ge (ab : Option Nat) (fuel i : Nat) (h : 10 ≤ i) :
    withIdRun ab fuel i = ([], i, false) := by
  cases fuel with
  | zero => rfl
  | succ f => simp [withIdRun, Nat.not_lt.mpr h]

lemma withIdRun_abort_ge {j : Nat} (hj : 10 ≤ j) :
    ∀ fuel i, withIdRun (some j) fuel i = withIdRun none fuel i := by
  intro fuel
  induction fuel with
  | zero => intro i; rfl
  | succ f ih =>
    intro i
    by_cases hi : i < 10
    · have h1 : ¬ ((some j : Option Nat) = some i) := by
        intro h
        cases h
        omega
      have h2 : ¬ ((none : Option Nat) = some i) := by
        intro h
        cases h
      simp only [withIdRun, if_pos hi, if_neg h1, if_neg h2, ih]
    · rw [withIdRun_ge _ _ _ (by omega), withIdRun_ge _ _ _ (by omega)]

lemma customEventsRun_abort_ge {j : Nat} (hj : 10 ≤ j) :
    ∀ fuel i, customEventsRun (some j) fuel i = customEventsRun none fuel i := by
  intro fuel
  induction fuel with
  | zero => intro i; rfl
  | succ f ih =>
    intro i
    by_cases hi : i < 10
    · have h1 : ¬ ((some j : Option Nat) = some i) := by
        intro h
        cases h
        omega
      have h2 : ¬ ((none : Option Nat) = some i) := by
        intro h
        cases h
      simp only [customEventsRun, if_pos hi, if_neg h1, if_neg h2, ih]
    · cases f <;> simp [customEventsRun, hi]

lemma ceTraceRun_abort_ge {j : Nat} (hj : 10 ≤ j) :
    ∀ fuel i, ceTraceRun (some j) fuel i = ceTraceRun none fuel i := by
  intro fuel
  induction fuel with
  | zero => intro i; rfl
  | succ f ih =>
    intro i
    by_cases hi : i < 10
    · have h1 : ¬ ((some j : Option Nat) = some i) := by
        intro h
        cases h
        omega
      have h2 : ¬ ((none : Option Nat) = some i) := by
        intro h
        cases h
      simp only [ceTraceRun, if_pos hi, if_neg h1, if_neg h2, ih]
    · cases f <;> simp [ceTraceRun, hi]

lemma emittedEventIds_append (a b : List Frame) :
    emittedEventIds (a ++ b) = emittedEventIds a ++ emittedEventIds b := by
  simp [emittedEventIds, List.filterMap_append]

lemma emittedEventIds_commentPart (h : Option String) :
    emittedEventIds (commentPart h) = [] := by
  rcases h with _ | s
  · rfl
  · by_cases he : s = ""
    · simp [commentPart, he, emittedEventIds]
    · rcases hp : jsParseInt s with _ | n
      · simp [commentPart, he, hp, emittedEventIds]
      · by_cases hn : n < 0 <;> simp [commentPart, he, hp, hn, emittedEventIds]

lemma regErase_idem (reg : Registry) (s : String) :
    regErase (regErase reg s) s = regErase reg s := by
  induction reg with
  | nil => rfl
  | cons hd tl ih => by_cases h : hd.1 = s <;> simp [regErase, List.filter_cons, h]

lemma regLookup_erase (reg : Registry) (s : String) :
    regLookup (regErase reg s) s = none := by
  induction reg with
  | nil => rfl
  | cons hd tl ih =>
    by_cases h : hd.1 = s
    · rw [regErase, List.filter_cons, if_neg (by simp [h])]
      exact ih
    · have hd1 : (decide (hd.1 = s)) = false := decide_eq_false h
      rw [regErase, List.filter_cons, if_pos (by simp [h]), regLookup, List.find?_cons, hd1]
      exact ih

lemma regErase_absent {reg : Registry} {s : String} (h : regLookup reg s = none) :
    regErase reg s = reg := by
  induction reg with
  | nil => rfl
  | cons hd tl ih =>
    by_cases hh : hd.1 = s
    · exfalso
      simp [regLookup, List.find?_cons, hh] at h
    · have ht : regLookup tl s = none := by
        simpa [regLookup, List.find?_cons, hh] using h
      simp [regErase, List.filter_cons, hh]
      simpa [regErase] using ih ht

/-! ## Claim theorems -/

lemma runSchedule_aux (chains : List (Option AuthContext)) :
    ∀ (sched : List Nat) (s : ALSState),
      (sched.foldl (resumeStep chains) s).cur = s.cur ∧
      ∀ p ∈ (sched.foldl (resumeStep chains) s).log,
        p ∈ s.log ∨ p.2 = (chains.get? p.1).getD none := by
  intro sched
  induction sched with
  | nil => exact fun s => ⟨rfl, fun p hp => Or.inl hp⟩
  | cons a rest ih =>
    intro s
    have h := ih (resumeStep chains s a)
    constructor
    · rw [List.foldl_cons, h.1]
      rfl
    · intro p hp
      rw [List.foldl_cons] at hp
      rcases h.2 p hp with hmem | hv
      · have hm2 : p ∈ s.log ++ [(a, (chains.get? a).getD none)] := hmem
        rcases List.mem_append.mp hm2 with h1 | h2
        · exact Or.inl h1
        · rw [List.mem_singleton] at h2
          rw [h2]
          exact Or.inr rfl
      · exact Or.inr hv

/-- C1, counterexample: the claim fails for the valid cursor `k = 0`.
Because of the deliberately simulated failure at event `5`
(`server-sent-events.ts` line 153), resuming from `Last-Event-Id: 0`
emits only ids `[1, 2, 3, 4, 5]`, not `1..9`. -/
theorem c1_counterexample :
    emittedEventIds (customEventsWithId true (some "0") none).frames = [1, 2, 3, 4, 5] ∧
    emittedEventIds (customEventsWithId true (some "0") none).frames ≠ List.range' 1 9 := by
  decide

/-- C1, amended: for a valid numeric cursor `k ≤ 9` the resumable
endpoint emits exactly the ids `k+1 .. 9`, in increasing order with no
duplicates and no gaps, when `5 ≤ k`; for `k < 5` emission is truncated
by the deliberately simulated failure after event `5`, emitting exactly
`k+1 .. 5`.  In particular `k = 5` emits `[6, 7, 8, 9]`. -/
theorem c1_amended_resumability (s : String) (k : Int)
    (hp : jsParseInt s = some k) (h0 : 0 ≤ k) (h9 : k ≤ 9) :
    emittedEventIds (customEventsWithId true (some s) none).frames =
      (if k < 5 then List.range' (k.toNat + 1) (5 - k.toNat)
       else List.range' (k.toNat + 1) (9 - k.toNat)) := by
  obtain ⟨m, rfl⟩ : ∃ m : Nat, k = (m : Int) := ⟨k.toNat, (Int.toNat_of_nonneg h0).symm⟩
  have hm9 : m ≤ 9 := by exact_mod_cast h9
  have hst := startIndex_valid hp h0
  have hc := commentPart_valid hp h0
  simp only [Int.toNat_natCast] at hst ⊢
  rcases Nat.lt_or_ge m 5 with h5 | h5
  · rw [if_pos (by exact_mod_cast h5)]
    simp only [customEventsWithId, if_pos rfl, hc, hst, List.nil_append]
    interval_cases m <;> decide
  · rw [if_neg (by exact_mod_cast Nat.not_lt.mpr h5)]
    simp only [customEventsWithId, if_pos rfl, hc, hst, List.nil_append]
    interval_cases m <;> decide

/-- C1, witness of the amended theorem at the concrete case `k = 5`. -/
theorem c1_amended_witness :
    emittedEventIds (customEventsWithId true (some "5") none).frames =
      (if (5 : Int) < 5 then List.range' 6 0 else List.range' 6 4) :=
  c1_amended_resumability "5" 5 (by decide) (by norm_num) (by norm_num)

/-- C6: a present but non-numeric or negative `Last-Event-Id` header does
not produce an error response: the endpoint still answers `200`, treats
the cursor as invalid (start index `0`) and restarts emission from event
id `0`; an absent header likewise starts from id `0`. -/
theorem c6_invalid_cursor (s : String)
    (hinv : jsParseInt s = none ∨ ∃ n, jsParseInt s = some n ∧ n < 0) :
    (customEventsWithId true (some s) none).status = 200 ∧
    startIndex (some s) = 0 ∧
    (emittedEventIds (customEventsWithId true (some s) none).frames).head? = some 0 ∧
    (customEventsWithId true none none).status = 200 ∧
    startIndex none = 0 ∧
    (emittedEventIds (customEventsWithId true none none).frames).head? = some 0 := by
  have hstart : startIndex (some s) = 0 := by
    by_cases he : s = ""
    · simp [startIndex, he]
    · rcases hinv with hp | ⟨n, hp, hn⟩
      · simp [startIndex, he, hp]
      · simp [startIndex, he, hp, hn]
  refine ⟨by simp [customEventsWithId], hstart, ?_, by decide, rfl, by decide⟩
  have hframes : (customEventsWithId true (some s) none).frames =
      commentPart (some s) ++ withIdStream 0 none := by
    simp [customEventsWithId, hstart]
  rw [hframes, emittedEventIds_append, emittedEventIds_commentPart, List.nil_append]
  decide

/-- C6, witness at the two headers named by the claim, `"abc"` and `"-3"`. -/
theorem c6_witness :
    ((customEventsWithId true (some "abc") none).status = 200 ∧
     startIndex (some "abc") = 0 ∧
     (emittedEventIds (customEventsWithId true (some "abc") none).frames).head? = some 0 ∧
     (customEventsWithId true none none).status = 200 ∧
     startIndex none = 0 ∧
     (emittedEventIds (customEventsWithId true none none).frames).head? = some 0) ∧
    ((customEventsWithId true (some "-3") none).status = 200 ∧
     startIndex (some "-3") = 0 ∧
     (emittedEventIds (customEventsWithId true (some "-3") none).frames).head? = some 0 ∧
     (customEventsWithId true none none).status = 200 ∧
     startIndex none = 0 ∧
     (emittedEventIds (customEventsWithId true none none).frames).head? = some 0) :=
  ⟨c6_invalid_cursor "abc" (Or.inl (by decide)),
   c6_invalid_cursor "-3" (Or.inr ⟨-3, by decide, by norm_num⟩)⟩

/-- C10: a valid cursor at the end of the stream (`k = 9`) emits zero
events but still the `eom` sentinel; a valid cursor past the end
(`k ≥ 10`) emits neither events nor the sentinel — the response ends
abruptly (the abnormal-termination signal). -/
theorem c10_cursor_past_end (s : String) (k : Int) (hp : jsParseInt s = some k) :
    (k = 9 →
      (customEventsWithId true (some s) none).frames = [Frame.eom] ∧
      emittedEventIds (customEventsWithId true (some s) none).frames = []) ∧
    (10 ≤ k → (customEventsWithId true (some s) none).frames = []) := by
  constructor
  · intro h9
    subst h9
    have hst := startIndex_valid hp (by norm_num)
    have hc := commentPart_valid hp (by norm_num)
    have h10 : (9 : Int).toNat + 1 = 10 := by decide
    rw [h10] at hst
    simp only [customEventsWithId, if_pos rfl, hc, hst, List.nil_append]
    decide
  · intro h10
    have hst := startIndex_valid hp (by omega)
    have hc := commentPart_valid hp (by omega)
    have h11 : 10 ≤ k.toNat + 1 := by omega
    have hne : ¬ (k.toNat + 1 = 10) := by omega
    simp [customEventsWithId, hc, hst, withIdStream, withIdRun_ge none 11 _ h11, hne]

/-- C7, counterexample: a resumed request with cursor `10` (start
position `11`) terminates normally in the sense of the claim — all of
its (zero) events were delivered and the client did not disconnect — yet
the response carries no `eom` sentinel: it is closed abruptly. -/
theorem c7_counterexample :
    NormalTermination (startIndex (some "10")) none ∧
    (customEventsWithId true (some "10") none).frames.getLast? ≠ some Frame.eom := by
  decide

/-- C7, amended: for every `/custom-events-with-id` run whose start
position is at most `10` (a fresh start or a valid cursor `k ≤ 9`), the
`eom` sentinel is the final frame exactly when the run terminates
normally (all events from the start position through id `9` delivered
and no disconnect); likewise for `/custom-events`; and `/data-only`
always ends with the empty-payload data-only sentinel.  A cursor past
the end of the stream (`k ≥ 10`, start position `≥ 11`) closes the
stream without the sentinel even though no event was missed. -/
theorem c7_amended_sentinel :
    (∀ (start : Nat) (ab : Option Nat), start ≤ 10 →
      ((withIdStream start ab).getLast? = some Frame.eom ↔ NormalTermination start ab)) ∧
    (∀ ab : Option Nat,
      ((customEventsStream ab).getLast? = some Frame.eom ↔ CeNormalTermination ab)) ∧
    dataOnlyStream.getLast? = some (Frame.data "") := by
  refine ⟨?_, ?_, by decide⟩
  · intro start ab hst
    rcases ab with _ | j
    · interval_cases start <;> decide
    · rcases Nat.lt_or_ge j 10 with hj | hj
      · interval_cases start <;> interval_cases j <;> decide
      · simp only [withIdStream, NormalTermination, withIdAborted, withIdRun_abort_ge hj]
        interval_cases start <;> decide
  · intro ab
    rcases ab with _ | j
    · decide
    · rcases Nat.lt_or_ge j 10 with hj | hj
      · interval_cases j <;> decide
      · simp only [customEventsStream, CeNormalTermination, ceAborted,
          customEventsRun_abort_ge hj]
        decide

/-- C7, witness of the amended theorem at start position `6` with no
disconnect. -/
theorem c7_amended_witness :
    (withIdStream 6 none).getLast? = some Frame.eom ↔ NormalTermination 6 none :=
  c7_amended_sentinel.1 6 none (by norm_num)

/-- C8, counterexample: a disconnect during the very first sleep of
`/custom-events` leaves the pending `setTimeout` running: the timer
started before the close signal still fires after it, so outstanding
waits are not cancelled. -/
theorem c8_counterexample :
    ceFullTrace (some 0) = [TItem.timerStart 0, TItem.closeSignal, TItem.timerFire 0] ∧
    timersCancelled (ceFullTrace (some 0)) = false := by
  decide

/-- C8, amended: a client disconnect is detected and aborts all further
event emission — no frame is written after the close signal is observed
— but the sleep pending at the disconnect is not cancelled: its timer
runs to completion (fires after the close signal) and the abort is only
acted on at the `aborted` check that follows it. -/
theorem c8_amended_disconnect :
    (∀ ab : Option Nat, noWritesAfterClose (ceFullTrace ab) = true) ∧
    (∀ j, j < 10 →
      TItem.timerStart j ∈ beforeClose (ceFullTrace (some j)) ∧
      TItem.timerFire j ∈ afterClose (ceFullTrace (some j))) := by
  constructor
  · intro ab
    rcases ab with _ | j
    · decide
    · rcases Nat.lt_or_ge j 10 with hj | hj
      · interval_cases j <;> decide
      · simp only [noWritesAfterClose, afterClose, ceFullTrace, ceTraceRun_abort_ge hj]
        decide
  · intro j hj
    interval_cases j <;> exact ⟨by decide, by decide⟩

/-- C8, witness of the amended theorem for a disconnect during the sleep
of iteration `2`. -/
theorem c8_amended_witness :
    noWritesAfterClose (ceFullTrace (some 2)) = true ∧
    TItem.timerStart 2 ∈ beforeClose (ceFullTrace (some 2)) ∧
    TItem.timerFire 2 ∈ afterClose (ceFullTrace (some 2)) :=
  ⟨c8_amended_disconnect.1 (some 2), c8_amended_disconnect.2 2 (by norm_num)⟩

/-- C10, witness at the headers `"9"` and `"10"`. -/
theorem c10_witness :
    ((customEventsWithId true (some "9") none).frames = [Frame.eom] ∧
     emittedEventIds (customEventsWithId true (some "9") none).frames = []) ∧
    (customEventsWithId true (some "10") none).frames = [] :=
  ⟨(c10_cursor_past_end "9" 9 (by decide)).1 rfl,
   (c10_cursor_past_end "10" 10 (by decide)).2 (by norm_num)⟩

/-- C2: whatever the interleaving of concurrently scheduled request
chains, every `getAuthContext()` call made inside a chain started by
`runWithAuthContext` with context `c` observes exactly `c` (and so never
another chain's context), and every call made in a chain outside any
`runWithAuthContext` scope — as well as at the top level after any
schedule — observes `none`, not an error. -/
theorem c2_context_isolation :
    (∀ (chains : List (Option AuthContext)) (sched : List Nat) (i : Nat)
        (v : Option AuthContext),
      (i, v) ∈ (runSchedule chains sched).log → v = (chains.get? i).getD none) ∧
    (∀ (chains : List (Option AuthContext)) (sched : List Nat),
      getAuthContextM (runSchedule chains sched) = none) := by
  constructor
  · intro chains sched i v hmem
    rcases (runSchedule_aux chains sched ⟨none, []⟩).2 (i, v) hmem with h | h
    · exact absurd h (List.not_mem_nil _)
    · exact h
  · intro chains sched
    exact (runSchedule_aux chains sched ⟨none, []⟩).1

/-- C2, witness: chain `0` is Alice's scope, chain `1` Bob's, chain `2`
runs outside any scope; under the interleaved schedule
`[0, 1, 0, 2, 1]` a read of chain `0` observes Alice's context. -/
theorem c2_witness :
    ((0, some aliceCtx) ∈ (runSchedule [some aliceCtx, some bobCtx, none] [0, 1, 0, 2, 1]).log) ∧
    some aliceCtx = (([some aliceCtx, some bobCtx, none].get? 0).getD none) :=
  ⟨by decide, c2_context_isolation.1 [some aliceCtx, some bobCtx, none] [0, 1, 0, 2, 1] 0
    (some aliceCtx) (by decide)⟩

/-- C3: a POST /mcp whose session id is missing or unknown and whose
body is not an initialize request is answered, by both streaming
servers, with `400` and exactly the JSON-RPC envelope
`jsonrpc "2.0", error code -32000 with message, id null`; the transport
registry is left unchanged and no transport processes the request (the
dispatch outcome is the error response, not a reuse or a create). -/
theorem c3_unknown_session_post (reg : Registry) (sid : Option String)
    (newSid : String) (newT : Nat)
    (hsid : sid = none ∨ ∃ s, sid = some s ∧ regLookup reg s = none) :
    mcpPostAuth reg sid false newSid newT =
      (PostDecision.errorResponse 400 noValidSessionError, reg) ∧
    mcpPostDemo reg sid false newSid newT =
      (PostDecision.errorResponse 400 noValidSessionError, reg) := by
  have hlive : liveTransport reg sid = none := by
    rcases hsid with h | ⟨s, hs, hl⟩
    · rw [h]
      rfl
    · rw [hs]
      by_cases he : s = "" <;> simp [liveTransport, he, hl]
  constructor <;> simp [mcpPostAuth, mcpPostDemo, hlive]

/-- C3, witness: an unknown session id against a registry holding one
live session. -/
theorem c3_witness :
    mcpPostAuth [("live", 1)] (some "dead") false "fresh" 2 =
      (PostDecision.errorResponse 400 noValidSessionError, [("live", 1)]) ∧
    mcpPostDemo [("live", 1)] (some "dead") false "fresh" 2 =
      (PostDecision.errorResponse 400 noValidSessionError, [("live", 1)]) :=
  c3_unknown_session_post [("live", 1)] (some "dead") "fresh" 2
    (Or.inr ⟨"dead", rfl, by decide⟩)

/-- C4: a request with no Authorization header, or whose bearer token
fails validation, is answered `401` with a `WWW-Authenticate` header
whose value interpolates the protected-resource discovery metadata URL,
and `next()` is never called (the request never reaches the transport);
a request whose token validates reaches the downstream handler with
`isAuthenticated = true`. -/
theorem c4_auth_gate :
    (∀ (resourceId : String) (validate : String → Option TokenClaims)
        (authHeader : Option String),
      (authHeader = none ∨ ∀ t, extractBearerToken authHeader = some t → validate t = none) →
      requiredAuthMiddleware resourceId validate authHeader =
        ⟨some 401, [("WWW-Authenticate", wwwAuthenticateValue resourceId)], false, false⟩) ∧
    (∀ (resourceId : String) (validate : String → Option TokenClaims)
        (authHeader : Option String) (t : String) (c : TokenClaims),
      extractBearerToken authHeader = some t → validate t = some c →
      (requiredAuthMiddleware resourceId validate authHeader).isAuthenticated = true ∧
      (requiredAuthMiddleware resourceId validate authHeader).nextCalled = true) := by
  constructor
  · intro rid validate h hrej
    rcases he : extractBearerToken h with _ | t
    · simp [requiredAuthMiddleware, he]
    · have hv : validate t = none := by
        rcases hrej with rfl | hf
        · exact absurd he (by simp [extractBearerToken])
        · exact hf t he
      simp [requiredAuthMiddleware, he, hv]
  · intro rid validate h t c he hv
    simp [requiredAuthMiddleware, he, hv]

/-- C4, witness: a request with no Authorization header is rejected with
the challenge header; a request with a validating token reaches the
handler authenticated. -/
theorem c4_witness :
    (requiredAuthMiddleware "http://localhost:3000/mcp" (fun _ => none) none =
      ⟨some 401,
        [("WWW-Authenticate", wwwAuthenticateValue "http://localhost:3000/mcp")],
        false, false⟩) ∧
    ((requiredAuthMiddleware "http://localhost:3000/mcp"
        (fun _ => some [("sub", "alice")]) (some "Bearer abc")).isAuthenticated = true ∧
     (requiredAuthMiddleware "http://localhost:3000/mcp"
        (fun _ => some [("sub", "alice")]) (some "Bearer abc")).nextCalled = true) :=
  ⟨c4_auth_gate.1 "http://localhost:3000/mcp" (fun _ => none) none (Or.inl rfl),
   c4_auth_gate.2 "http://localhost:3000/mcp" (fun _ => some [("sub", "alice")])
     (some "Bearer abc") "abc" [("sub", "alice")] (by decide) rfl⟩

/-- C5: a DELETE /mcp carrying the session id of a live session is
delivered to that session's transport (whose SDK-side termination
handling, modelled from the spec, closes it and runs the `onclose`
cleanup); the registry entry is removed, and a subsequent request with
the same session id is treated as unknown-session. -/
theorem c5_delete_terminates (reg : Registry) (s : String) (t : Nat)
    (hs : s ≠ "") (hl : regLookup reg s = some t) :
    deleteMcpAuth reg (some s) = (SessionReqOutcome.delivered t, regErase reg s) ∧
    regLookup (regErase reg s) s = none ∧
    handleSessionRequest (regErase reg s) (some s) =
      SessionReqOutcome.invalidSession 400 "Invalid or missing session ID" ∧
    mcpPostAuth (regErase reg s) (some s) false "fresh" 0 =
      (PostDecision.errorResponse 400 noValidSessionError, regErase reg s) := by
  have hlive : liveTransport reg (some s) = some t := by simp [liveTransport, hs, hl]
  have hgone := regLookup_erase reg s
  refine ⟨?_, hgone, ?_, ?_⟩
  · simp [deleteMcpAuth, handleSessionRequest, hlive, oncloseAuth, hs]
  · simp [handleSessionRequest, liveTransport, hs, hgone]
  · have hlive2 : liveTransport (regErase reg s) (some s) = none := by
      simp [liveTransport, hs, hgone]
    simp [mcpPostAuth, hlive2]

/-- C5, witness at a one-session registry. -/
theorem c5_witness :
    deleteMcpAuth [("s1", 7)] (some "s1") = (SessionReqOutcome.delivered 7, regErase [("s1", 7)] "s1") ∧
    regLookup (regErase [("s1", 7)] "s1") "s1" = none ∧
    handleSessionRequest (regErase [("s1", 7)] "s1") (some "s1") =
      SessionReqOutcome.invalidSession 400 "Invalid or missing session ID" ∧
    mcpPostAuth (regErase [("s1", 7)] "s1") (some "s1") false "fresh" 0 =
      (PostDecision.errorResponse 400 noValidSessionError, regErase [("s1", 7)] "s1") :=
  c5_delete_terminates [("s1", 7)] "s1" 7 (by decide) (by decide)

/-- C9: the onclose registry cleanup is idempotent in both servers —
running it twice yields the same registry as running it once — and
removing an id that is already absent is a no-op, not an error. -/
theorem c9_remove_idempotent :
    (∀ (sid : Option String) (reg : Registry),
      oncloseAuth sid (oncloseAuth sid reg) = oncloseAuth sid reg ∧
      oncloseDemo sid (oncloseDemo sid reg) = oncloseDemo sid reg) ∧
    (∀ (s : String) (reg : Registry), regLookup reg s = none →
      oncloseAuth (some s) reg = reg ∧ oncloseDemo (some s) reg = reg) := by
  constructor
  · intro sid reg
    rcases sid with _ | s
    · exact ⟨rfl, rfl⟩
    · by_cases hs : s = ""
      · simp [oncloseAuth, oncloseDemo, hs]
      · constructor
        · simp [oncloseAuth, hs, regErase_idem]
        · by_cases hl : (regLookup reg s).isSome
          · simp [oncloseDemo, hs, hl, regLookup_erase, regErase_idem]
          · simp [oncloseDemo, hs, hl]
  · intro s reg h
    by_cases hs : s = ""
    · simp [oncloseAuth, oncloseDemo, hs]
    · simp [oncloseAuth, oncloseDemo, hs, h, regErase_absent h]

/-- C9, witness: removal of an id absent from a one-entry registry. -/
theorem c9_witness :
    oncloseAuth (some "gone") [("a", 1)] = [("a", 1)] ∧
    oncloseDemo (some "gone") [("a", 1)] = [("a", 1)] :=
  c9_remove_idempotent.2 "gone" [("a", 1)] (by decide)
